import Mathlib

/-!
Shallow embedding of the fine-tuning orchestration core of the
guidance-for-dynamic-game-npc-dialogue-on-aws repository:

* `src/components/fine_tuner/runtime/index.py` — the tuner Lambda:
  `lambda_handler`, `start_fine_tuning`, `check_status`, `finalize`;
* `src/components/tuning_workflow/runtime/index.py` — the callback router
  Lambda (`lambda_handler`, modelled here as `routeRecords`);
* `src/components/tuning_workflow/__init__.py` — the Step Functions
  wait/poll state machine (`Orchestration.__init__`, modelled here as
  `sfnStep` / `sfnRunFrom`).

Python dictionaries carrying string data are modelled as association
lists; a subscript lookup `d[k]` that can raise `KeyError` becomes a
computation in `Except PyErr`, and `d.get(k)` becomes an `Option` field.
External AWS calls (Bedrock, SageMaker, Step Functions) are modelled as
explicit function parameters returning `Except PyErr`, and the callback /
execution side effects are reified as action values.
-/

/-- Python exception values distinguished by the handlers: `KeyError`
(raised by a failed subscript), `TypeError` (subscripting `None`),
`botocore ClientError`, and a generic re-raised `Exception`. -/
inductive PyErr where
  | keyError (msg : String)
  | typeError
  | clientError (msg : String)
  | exn (msg : String)
deriving DecidableEq, Repr

deriving instance DecidableEq for Except

/-- A Python `dict` of strings, as an association list (first binding wins). -/
def Dict : Type := List (String × String)

instance : DecidableEq Dict := by
  unfold Dict
  infer_instance

/-- Subscript lookup `d[k]`: the value, or a raised `KeyError`. -/
def dictGet (d : Dict) (k : String) : Except PyErr String :=
  match d.find? (fun kv => kv.1 == k) with
  | some kv => .ok kv.2
  | none => .error (.keyError k)

/-- Optional field of the `get_model_customization_job` response read by the
tuner; a `none` field is an absent key. `outputDataS3Uri` stands for the
nested `outputDataConfig.s3Uri`. -/
structure BedrockResponse where
  status : Option String
  jobName : Option String
  jobArn : Option String
  outputModelName : Option String
  outputModelArn : Option String
  baseModelArn : Option String
  outputDataS3Uri : Option String
  failureMessage : Option String
deriving DecidableEq, Repr

/-- Subscript access to an optional response field: `KeyError` when absent. -/
def need (o : Option String) (k : String) : Except PyErr String :=
  match o with
  | some v => .ok v
  | none => .error (.keyError k)

/-- Side effects of the tuner Lambda on the SageMaker pipeline callback:
`send_pipeline_execution_step_success` with named output parameters, and
`send_pipeline_execution_step_failure` with a reason. -/
inductive SmAction where
  | stepSuccess (token : Option String) (outputs : List (String × String))
  | stepFailure (token : Option String) (reason : String)
deriving DecidableEq, Repr

/-- The workflow invocation payload threaded between state-machine steps,
with every field read through `.get` or a guarded subscript in the source. -/
structure WorkflowEvent where
  status : Option String
  jobName : Option String
  jobArn : Option String
  parameters : Option Dict
  token : Option String
deriving DecidableEq

/-- Status classification at the heart of `check_status`
(fine_tuner/runtime/index.py lines 97-98): raw states `Failed`, `Stopped`
and `Stopping` collapse to `Failed`; every other raw state is returned
unchanged. -/
def classifyStatus (s : String) : String :=
  if s = "Failed" ∨ s = "Stopped" ∨ s = "Stopping" then "Failed" else s

/-- The `check_status` function of fine_tuner/runtime/index.py: query the
job by name, read its `status` key, classify. The Bedrock
`get_model_customization_job` call is the parameter `getJob`. -/
def check_status (getJob : Option String → Except PyErr BedrockResponse)
    (jobName : Option String) : Except PyErr String := do
  let resp ← getJob jobName
  let s ← need resp.status "status"
  pure (classifyStatus s)

/-- Body of `finalize` inside its `try` block (fine_tuner/runtime/index.py
lines 104-152): re-fetch the job details, then send a success callback with
the six named outputs, or a failure callback whose reason is the fixed
manual-stop message when the native status is `Stopped` and the
`failureMessage` field otherwise. -/
def finalizeBody (getJob : Option String → Except PyErr BedrockResponse)
    (event : WorkflowEvent) : Except PyErr (List SmAction) := do
  let resp ← getJob event.jobName
  let st ← need event.status "status"
  if st = "Completed" then
    let mn ← need resp.outputModelName "outputModelName"
    let ma ← need resp.outputModelArn "outputModelArn"
    let jn ← need resp.jobName "jobName"
    let ja ← need resp.jobArn "jobArn"
    let ba ← need resp.baseModelArn "baseModelArn"
    let od ← need resp.outputDataS3Uri "outputDataConfig.s3Uri"
    pure [.stepSuccess event.token
      [("OUTPUT_MODEL_NAME", mn), ("OUTPUT_MODEL_ARN", ma),
       ("JOB_NAME", jn), ("JOB_ARN", ja),
       ("BASE_MODEL_ARN", ba), ("OUTPUT_DATA", od)]]
  else
    let rs ← need resp.status "status"
    let msg ← if rs = "Stopped" then
        pure "Model customization has been manually stopped"
      else
        need resp.failureMessage "failureMessage"
    pure [.stepFailure event.token msg]

/-- The `finalize` function with its `except ClientError` clause
(fine_tuner/runtime/index.py lines 154-156): a `ClientError` is re-raised
as a generic `Exception` carrying the error message; every other exception
(in particular `KeyError`) propagates unchanged. -/
def finalize (getJob : Option String → Except PyErr BedrockResponse)
    (event : WorkflowEvent) : Except PyErr (List SmAction) :=
  match finalizeBody getJob event with
  | .error (.clientError m) => .error (.exn m)
  | r => r

/-- Process environment of the tuner Lambda: `AWS_DEFAULT_REGION` and
`BEDROCK_ROLE`. -/
structure Env where
  region : String
  bedrockRole : String
deriving DecidableEq

/-- Keyword arguments of `create_model_customization_job` as assembled by
`start_fine_tuning` (fine_tuner/runtime/index.py lines 55-85); the single
validator and the nested s3Uri / hyperparameter dictionaries are flattened
to their string payloads. -/
structure CreateRequest where
  jobName : String
  customModelName : String
  roleArn : String
  baseModelIdentifier : String
  trainingDataS3Uri : String
  validationDataS3Uri : String
  outputDataS3Uri : String
  epochCount : String
  batchSize : String
  learningRate : String
  learningRateWarmupSteps : String
  tagExecutionId : String
deriving DecidableEq

/-- Job-name derivation of fine_tuner/runtime/index.py line 53: the f-string
interpolating `params` subscripts of `JOB_PREFIX` and `EXECUTION_ID` around
the literal `-TuningJob-`. -/
def deriveJobName (params : Dict) : Except PyErr String := do
  let pre ← dictGet params "JOB_PREFIX"
  let eid ← dictGet params "EXECUTION_ID"
  pure (pre ++ "-TuningJob-" ++ eid)

/-- The `start_fine_tuning` function (fine_tuner/runtime/index.py lines
50-91). The Bedrock `create_model_customization_job` call is the parameter
`createJob`, returning the `jobArn` of its response; `paramsOpt` is the
`event.get("parameters")` argument, so a `none` is Python `None` and
subscripting it raises `TypeError`. Dictionary subscripts are evaluated in
source order; a `ClientError` from the provider is re-raised as a generic
`Exception` carrying its message. -/
def start_fine_tuning (env : Env)
    (createJob : CreateRequest → Except PyErr String)
    (paramsOpt : Option Dict) : Except PyErr (String × String) := do
  match paramsOpt with
  | none => .error .typeError
  | some params => do
    let jobName ← deriveJobName params
    let cpre ← dictGet params "JOB_PREFIX"
    let ceid ← dictGet params "EXECUTION_ID"
    let base ← dictGet params "BASE_MODEL"
    let train ← dictGet params "TRAIN_DATA"
    let valid ← dictGet params "VALIDATION_DATA"
    let bucket ← dictGet params "DATA_BUCKET"
    let oeid ← dictGet params "EXECUTION_ID"
    let epochs ← dictGet params "EPOCHS"
    let batch ← dictGet params "BATCH_SIZE"
    let lr ← dictGet params "LEARNING_RATE"
    let warm ← dictGet params "WARMUP_STEPS"
    let teid ← dictGet params "EXECUTION_ID"
    match createJob
      { jobName := jobName
        customModelName := cpre ++ "-" ++ ceid
        roleArn := env.bedrockRole
        baseModelIdentifier :=
          "arn:aws:bedrock:" ++ env.region ++ "::foundation-model/" ++ base
        trainingDataS3Uri := train ++ "/data.jsonl"
        validationDataS3Uri := valid ++ "/data.jsonl"
        outputDataS3Uri := "s3://" ++ bucket ++ "/" ++ oeid
        epochCount := epochs
        batchSize := batch
        learningRate := lr
        learningRateWarmupSteps := warm
        tagExecutionId := teid } with
    | .ok arn => .ok (jobName, arn)
    | .error (.clientError m) => .error (.exn m)
    | .error e => .error e

/-- The tuner `lambda_handler` (fine_tuner/runtime/index.py lines 22-47).
Its result pairs the returned event (`none` models the implicit Python
`return None` of the finalize branch and of an unmatched status) with the
callback actions performed. A missing `status` key raises `KeyError`
before anything else happens. -/
def lambda_handler (env : Env)
    (createJob : CreateRequest → Except PyErr String)
    (getJob : Option String → Except PyErr BedrockResponse)
    (event : WorkflowEvent) :
    Except PyErr (Option WorkflowEvent × List SmAction) :=
  match event.status with
  | none => .error (.keyError "'status' parameter not found in event!")
  | some status =>
    if status = "Start" then
      match start_fine_tuning env createJob event.parameters with
      | .error e => .error e
      | .ok (jn, ja) =>
        .ok (some { event with
          jobName := some jn, jobArn := some ja, status := some "InProgress" }, [])
    else if status = "InProgress" then
      match check_status getJob event.jobName with
      | .error e => .error e
      | .ok s => .ok (some { event with status := some s }, [])
    else if status = "Completed" ∨ status = "Failed" then
      match finalize getJob event with
      | .error e => .error e
      | .ok acts => .ok (none, acts)
    else
      .ok (none, [])

/-- One parsed SQS record body seen by the callback router
(tuning_workflow/runtime/index.py): the `status`, `arguments` and `token`
fields are all read with `.get`, so each may be absent. -/
structure RouterPayload where
  status : Option String
  arguments : Option Dict
  token : Option String
deriving DecidableEq

/-- Input of a started state-machine execution
(tuning_workflow/runtime/index.py lines 29-35). -/
structure WorkflowInput where
  status : String
  parameters : Option Dict
  token : Option String
deriving DecidableEq

/-- Side effects of the callback router: `start_execution` on the Step
Functions state machine, or `send_pipeline_execution_step_failure` on the
SageMaker pipeline. -/
inductive RouterAction where
  | startExecution (input : WorkflowInput)
  | sendFailure (token : Option String) (reason : String)
deriving DecidableEq

/-- The value returned by the router Lambda when it starts an execution:
`{"statusCode": 200, "body": execution_arn}`. -/
structure RouterResult where
  statusCode : Nat
  body : String
deriving DecidableEq

/-- The loop body of the callback router `lambda_handler`
(tuning_workflow/runtime/index.py lines 22-56) over the parsed record
bodies. A record whose `status` is not `"Stopping"` starts one execution
with input `{status: "Start", parameters: arguments, token: token}` and
returns immediately, so later records are never examined; a `"Stopping"`
record sends one failure callback with the fixed reason
`"Manual Stopping Behavior"` and the loop continues. `arn` is the
`executionArn` of the `start_execution` response. A fully consumed list
returns Python `None`, modelled as a `none` result. -/
def routeRecords (arn : String) :
    List RouterPayload → List RouterAction × Option RouterResult
  | [] => ([], none)
  | p :: rest =>
    if p.status ≠ some "Stopping" then
      ([.startExecution ⟨"Start", p.arguments, p.token⟩],
       some ⟨200, arn⟩)
    else
      let r := routeRecords arn rest
      (.sendFailure p.token "Manual Stopping Behavior" :: r.1, r.2)

/-- Nodes of the wait/poll Step Functions state machine declared in
tuning_workflow/__init__.py: the `Start Fine-tuning`, `Wait`,
`Get Tuning Status`, `Review Status`, `Tuning Complete` and
`Tuning Failed` states. -/
inductive SfnNode where
  | startFineTuning
  | waitTenMinutes
  | getTuningStatus
  | reviewStatus
  | tuningComplete
  | tuningFailed
deriving DecidableEq, Repr

/-- A configuration of the state machine: the current node together with
the number of completed poll/branch rounds (so the status examined by
`Review Status` is the result of poll number `polls`). -/
structure SfnConfig where
  node : SfnNode
  polls : Nat
deriving DecidableEq, Repr

/-- The duration of the `Wait` state, from
`cdk.Duration.minutes(10)` in tuning_workflow/__init__.py line 83. -/
def waitDurationMinutes : Nat := 10

/-- One transition of the state machine of tuning_workflow/__init__.py:
`start_step.next(wait_step)`, `wait_step.next(status_step)`,
`status_step.next(status_choice)`, and the choice sending
`$.Payload.status = "Completed"` to `Tuning Complete`, `"Failed"` to
`Tuning Failed`, and otherwise back to `Wait`. The function `pollResult`
gives the status returned by the k-th invocation of the poll task; the
two finalizer tasks have no successor, so they are absorbing. -/
def sfnStep (pollResult : Nat → String) (c : SfnConfig) : SfnConfig :=
  match c.node with
  | .startFineTuning => ⟨.waitTenMinutes, c.polls⟩
  | .waitTenMinutes => ⟨.getTuningStatus, c.polls⟩
  | .getTuningStatus => ⟨.reviewStatus, c.polls⟩
  | .reviewStatus =>
    if pollResult c.polls = "Completed" then ⟨.tuningComplete, c.polls + 1⟩
    else if pollResult c.polls = "Failed" then ⟨.tuningFailed, c.polls + 1⟩
    else ⟨.waitTenMinutes, c.polls + 1⟩
  | .tuningComplete => c
  | .tuningFailed => c

/-- Iterated transitions from a configuration. -/
def sfnRunFrom (pollResult : Nat → String) : Nat → SfnConfig → SfnConfig
  | 0, c => c
  | n + 1, c => sfnRunFrom pollResult n (sfnStep pollResult c)

/-- The run of the state machine from its `Start Fine-tuning` initial
state (`definition_body=from_chainable(start_step.next(wait_step))`). -/
def sfnRun (pollResult : Nat → String) (n : Nat) : SfnConfig :=
  sfnRunFrom pollResult n ⟨.startFineTuning, 0⟩

/-- A configuration sitting in one of the two finalizer tasks. -/
def SfnConfig.isTerminal (c : SfnConfig) : Bool :=
  match c.node with
  | .tuningComplete => true
  | .tuningFailed => true
  | _ => false

/-- Modelled from the spec: the raw job states of the external provider.
The provider itself is not part of this repository; the spec names
`Failed`, `Stopped`, `Stopping`, `Completed` and `InProgress` (the JobState
lifecycle and the states listed for the Status Poller) as the states its
job-status query reports. -/
def isProviderRawStatus (s : String) : Bool :=
  s = "InProgress" || s = "Completed" || s = "Failed" ||
    s = "Stopping" || s = "Stopped"

/-- Raw provider states that the poller classification sends to a
terminal reduced state (`Completed` or `Failed`). -/
def isRawTerminal (s : String) : Bool :=
  s = "Completed" || s = "Failed" || s = "Stopped" || s = "Stopping"

/-- The failure callback the router sends for a `"Stopping"` record. -/
def stoppingFailure (p : RouterPayload) : RouterAction :=
  .sendFailure p.token "Manual Stopping Behavior"

/-- Discriminator for `start_execution` actions of the router. -/
def RouterAction.isStart : RouterAction → Bool
  | .startExecution _ => true
  | .sendFailure _ _ => false

/-- Helper: a successful `Except` bind splits into a successful scrutinee
and a successful continuation. -/
theorem exceptBindOk {α β : Type} {x : Except PyErr α} {f : α → Except PyErr β}
    {b : β} (h : x >>= f = .ok b) : ∃ a, x = .ok a ∧ f a = .ok b := by
  cases x with
  | error e => exact absurd h (by simp [Bind.bind, Except.bind])
  | ok a => exact ⟨a, rfl, by simpa [Bind.bind, Except.bind] using h⟩

/-- Helper: bind of a successful `Except` computes. -/
theorem exceptOkBind {α β : Type} (a : α) (f : α → Except PyErr β) :
    (Except.ok a >>= f) = f a := rfl

/-- C1: for every raw status string the job-status query can report, the
Status Poller outputs `Failed` when the raw state is `Failed`, `Stopped`
or `Stopping`, outputs `Completed` for `Completed`, and outputs
`InProgress` for every other raw state. -/
theorem c1_poller_classification (s : String)
    (hs : isProviderRawStatus s = true) :
    ((s = "Failed" ∨ s = "Stopped" ∨ s = "Stopping") → classifyStatus s = "Failed") ∧
    (s = "Completed" → classifyStatus s = "Completed") ∧
    (¬(s = "Failed" ∨ s = "Stopped" ∨ s = "Stopping") → s ≠ "Completed" →
      classifyStatus s = "InProgress") := by
  simp only [isProviderRawStatus, Bool.or_eq_true, decide_eq_true_eq] at hs
  rcases hs with (((h | h) | h) | h) | h <;> subst h <;> decide

/-- Witness for C1 at the raw state `Stopping`. -/
theorem c1_poller_classification_witness :
    isProviderRawStatus "Stopping" = true ∧
    (((("Stopping" : String) = "Failed") ∨ (("Stopping" : String) = "Stopped") ∨
        (("Stopping" : String) = "Stopping")) → classifyStatus "Stopping" = "Failed") ∧
    (("Stopping" : String) = "Completed" → classifyStatus "Stopping" = "Completed") ∧
    (¬((("Stopping" : String) = "Failed") ∨ (("Stopping" : String) = "Stopped") ∨
        (("Stopping" : String) = "Stopping")) → ("Stopping" : String) ≠ "Completed" →
      classifyStatus "Stopping" = "InProgress") :=
  ⟨by decide, c1_poller_classification "Stopping" (by decide)⟩

/-- C4: on the success path (context status `Completed`), `finalize`
reports success on the callback token with exactly the six named outputs
OUTPUT_MODEL_NAME, OUTPUT_MODEL_ARN, JOB_NAME, JOB_ARN, BASE_MODEL_ARN,
OUTPUT_DATA, in this order, each taken from the re-fetched job details. -/
theorem c4_finalizer_success_outputs
    (getJob : Option String → Except PyErr BedrockResponse)
    (event : WorkflowEvent) (resp : BedrockResponse)
    (mn ma jn ja ba od : String)
    (hg : getJob event.jobName = .ok resp)
    (hs : event.status = some "Completed")
    (h1 : resp.outputModelName = some mn) (h2 : resp.outputModelArn = some ma)
    (h3 : resp.jobName = some jn) (h4 : resp.jobArn = some ja)
    (h5 : resp.baseModelArn = some ba) (h6 : resp.outputDataS3Uri = some od) :
    finalize getJob event = .ok [.stepSuccess event.token
      [("OUTPUT_MODEL_NAME", mn), ("OUTPUT_MODEL_ARN", ma),
       ("JOB_NAME", jn), ("JOB_ARN", ja),
       ("BASE_MODEL_ARN", ba), ("OUTPUT_DATA", od)]] := by
  simp [finalize, finalizeBody, hg, hs, need, h1, h2, h3, h4, h5, h6,
    Bind.bind, Except.bind, Functor.map, Except.map, pure, Except.pure]

/-- Witness for C4 on a concrete completed job. -/
theorem c4_finalizer_success_outputs_witness :
    (fun _ : Option String => Except.ok (ε := PyErr)
        (BedrockResponse.mk (some "Completed") (some "demo-TuningJob-e1")
          (some "arn:job") (some "model-1") (some "arn:model") (some "arn:base")
          (some "s3://bucket/e1") none)) (some "demo-TuningJob-e1") =
      .ok (BedrockResponse.mk (some "Completed") (some "demo-TuningJob-e1")
          (some "arn:job") (some "model-1") (some "arn:model") (some "arn:base")
          (some "s3://bucket/e1") none) ∧
    finalize
      (fun _ : Option String => Except.ok
        (BedrockResponse.mk (some "Completed") (some "demo-TuningJob-e1")
          (some "arn:job") (some "model-1") (some "arn:model") (some "arn:base")
          (some "s3://bucket/e1") none))
      (WorkflowEvent.mk (some "Completed") (some "demo-TuningJob-e1")
        (some "arn:job") none (some "tok")) =
      .ok [.stepSuccess (some "tok")
        [("OUTPUT_MODEL_NAME", "model-1"), ("OUTPUT_MODEL_ARN", "arn:model"),
         ("JOB_NAME", "demo-TuningJob-e1"), ("JOB_ARN", "arn:job"),
         ("BASE_MODEL_ARN", "arn:base"), ("OUTPUT_DATA", "s3://bucket/e1")]] :=
  ⟨rfl, c4_finalizer_success_outputs _ _ _ _ _ _ _ _ _ rfl rfl rfl rfl rfl rfl rfl rfl⟩

/-- C5: on the failure path (context status not `Completed`), `finalize`
reports failure on the callback token with the fixed reason
`Model customization has been manually stopped` when the re-fetched native
status is `Stopped`, and with the provider failure message for every other
native status. -/
theorem c5_finalizer_failure_reason
    (getJob : Option String → Except PyErr BedrockResponse)
    (event : WorkflowEvent) (resp : BedrockResponse) (st : String)
    (hg : getJob event.jobName = .ok resp)
    (hs : event.status = some st)
    (hne : st ≠ "Completed") :
    (resp.status = some "Stopped" →
      finalize getJob event = .ok [.stepFailure event.token
        "Model customization has been manually stopped"]) ∧
    (∀ ns m, resp.status = some ns → ns ≠ "Stopped" →
      resp.failureMessage = some m →
      finalize getJob event = .ok [.stepFailure event.token m]) := by
  constructor
  · intro h
    simp [finalize, finalizeBody, hg, hs, hne, need, h,
      Bind.bind, Except.bind, Functor.map, Except.map, pure, Except.pure]
  · intro ns m h hn hm
    simp [finalize, finalizeBody, hg, hs, hne, need, h, hn, hm,
      Bind.bind, Except.bind, Functor.map, Except.map, pure, Except.pure]

/-- Witness for C5: a poll saw `Failed`, the re-fetched job is `Stopped`. -/
theorem c5_finalizer_failure_reason_witness :
    ((fun _ : Option String => Except.ok (ε := PyErr)
        (BedrockResponse.mk (some "Stopped") none none none none none none none))
      (some "demo-TuningJob-e1") =
      .ok (BedrockResponse.mk (some "Stopped") none none none none none none none)) ∧
    (BedrockResponse.mk (some "Stopped") none none none none none none none).status
        = some "Stopped" ∧
    finalize
      (fun _ : Option String => Except.ok
        (BedrockResponse.mk (some "Stopped") none none none none none none none))
      (WorkflowEvent.mk (some "Failed") (some "demo-TuningJob-e1") none none
        (some "tok")) =
      .ok [.stepFailure (some "tok")
        "Model customization has been manually stopped"] :=
  ⟨rfl, rfl,
    (c5_finalizer_failure_reason _ _ _ "Failed" rfl rfl (by decide)).1 rfl⟩

/-- C10: on the failure path with re-fetched native status `Stopping`, the
fixed manual-stop message is not used: the reason is read from the
`failureMessage` key, and when that key is absent the resulting `KeyError`
passes uncaught through the `except ClientError` clause of `finalize` and
through the tuner handler. -/
theorem c10_stopping_reads_failure_message
    (getJob : Option String → Except PyErr BedrockResponse)
    (event : WorkflowEvent) (resp : BedrockResponse) (st : String)
    (hg : getJob event.jobName = .ok resp)
    (hs : event.status = some st)
    (hne : st ≠ "Completed")
    (hstop : resp.status = some "Stopping") :
    (∀ m, resp.failureMessage = some m →
      finalize getJob event = .ok [.stepFailure event.token m]) ∧
    (resp.failureMessage = none →
      finalize getJob event = .error (.keyError "failureMessage")) ∧
    (resp.failureMessage = none → st = "Failed" →
      ∀ (env : Env) (createJob : CreateRequest → Except PyErr String),
        lambda_handler env createJob getJob event =
          .error (.keyError "failureMessage")) := by
  refine ⟨?_, ?_, ?_⟩
  · intro m hm
    simp [finalize, finalizeBody, hg, hs, hne, hstop, hm, need,
      Bind.bind, Except.bind, Functor.map, Except.map, pure, Except.pure]
  · intro hm
    simp [finalize, finalizeBody, hg, hs, hne, hstop, hm, need,
      Bind.bind, Except.bind, Functor.map, Except.map, pure, Except.pure]
  · intro hm hf env createJob
    subst hf
    have hfin : finalize getJob event = .error (.keyError "failureMessage") := by
      simp [finalize, finalizeBody, hg, hs, hne, hstop, hm, need,
        Bind.bind, Except.bind, Functor.map, Except.map, pure, Except.pure]
    simp [lambda_handler, hs, hfin]

/-- Witness for C10: re-fetched status `Stopping` with no `failureMessage`. -/
theorem c10_stopping_reads_failure_message_witness :
    ((fun _ : Option String => Except.ok (ε := PyErr)
        (BedrockResponse.mk (some "Stopping") none none none none none none none))
      (some "demo-TuningJob-e1") =
      .ok (BedrockResponse.mk (some "Stopping") none none none none none none none)) ∧
    finalize
      (fun _ : Option String => Except.ok
        (BedrockResponse.mk (some "Stopping") none none none none none none none))
      (WorkflowEvent.mk (some "Failed") (some "demo-TuningJob-e1") none none
        (some "tok")) = .error (.keyError "failureMessage") :=
  ⟨rfl,
    (c10_stopping_reads_failure_message _ _ _ "Failed" rfl rfl (by decide) rfl).2.1 rfl⟩

/-- C3: for parameters containing `JOB_PREFIX` and `EXECUTION_ID`, the Job
Submitter derives the job name as exactly `<JOB_PREFIX>-TuningJob-<EXECUTION_ID>`;
any successful submission returns exactly that name, and the derivation is
deterministic in its inputs. -/
theorem c3_job_name_derivation (d : Dict) (pre eid : String)
    (hp : dictGet d "JOB_PREFIX" = .ok pre)
    (he : dictGet d "EXECUTION_ID" = .ok eid) :
    deriveJobName d = .ok (pre ++ "-TuningJob-" ++ eid) ∧
    (∀ (env : Env) (createJob : CreateRequest → Except PyErr String)
        (jn arn : String),
      start_fine_tuning env createJob (some d) = .ok (jn, arn) →
      jn = pre ++ "-TuningJob-" ++ eid) ∧
    (∀ d2 : Dict, d2 = d → deriveJobName d2 = deriveJobName d) := by
  have h1 : deriveJobName d = .ok (pre ++ "-TuningJob-" ++ eid) := by
    simp [deriveJobName, hp, he, Bind.bind, Except.bind, pure, Except.pure]
  refine ⟨h1, ?_, fun d2 hd => by rw [hd]⟩
  intro env createJob jn arn h
  simp only [start_fine_tuning] at h
  rw [h1] at h
  simp only [exceptOkBind] at h
  rw [hp] at h
  simp only [exceptOkBind] at h
  rw [he] at h
  simp only [exceptOkBind] at h
  obtain ⟨base, _, h⟩ := exceptBindOk h
  obtain ⟨train, _, h⟩ := exceptBindOk h
  obtain ⟨valid, _, h⟩ := exceptBindOk h
  obtain ⟨bucket, _, h⟩ := exceptBindOk h
  obtain ⟨epochs, _, h⟩ := exceptBindOk h
  obtain ⟨batch, _, h⟩ := exceptBindOk h
  obtain ⟨lr, _, h⟩ := exceptBindOk h
  obtain ⟨warm, _, h⟩ := exceptBindOk h
  split at h
  · simp only [Except.ok.injEq, Prod.mk.injEq] at h
    exact h.1.symm
  · exact Except.noConfusion h
  · exact Except.noConfusion h

/-- Witness for C3 on a concrete parameter dictionary. -/
theorem c3_job_name_derivation_witness :
    dictGet [("JOB_PREFIX", "demo"), ("EXECUTION_ID", "e1")] "JOB_PREFIX"
      = .ok "demo" ∧
    dictGet [("JOB_PREFIX", "demo"), ("EXECUTION_ID", "e1")] "EXECUTION_ID"
      = .ok "e1" ∧
    deriveJobName [("JOB_PREFIX", "demo"), ("EXECUTION_ID", "e1")]
      = .ok "demo-TuningJob-e1" :=
  ⟨by decide, by decide,
    (c3_job_name_derivation [("JOB_PREFIX", "demo"), ("EXECUTION_ID", "e1")]
      "demo" "e1" (by decide) (by decide)).1⟩

/-- C7: for an event with status `Start` whose parameters let the Job
Submitter succeed, the tuner handler sets `jobName` and `jobArn` from the
returned job handle, sets status to `InProgress`, performs no callback
action, and returns the event with `parameters` and `token` unchanged. -/
theorem c7_start_branch (env : Env)
    (createJob : CreateRequest → Except PyErr String)
    (getJob : Option String → Except PyErr BedrockResponse)
    (event : WorkflowEvent) (jn ja : String)
    (hs : event.status = some "Start")
    (hst : start_fine_tuning env createJob event.parameters = .ok (jn, ja)) :
    lambda_handler env createJob getJob event =
      .ok (some { event with
        jobName := some jn, jobArn := some ja, status := some "InProgress" }, []) ∧
    ({ event with
        jobName := some jn, jobArn := some ja,
        status := some "InProgress" } : WorkflowEvent).parameters
      = event.parameters ∧
    ({ event with
        jobName := some jn, jobArn := some ja,
        status := some "InProgress" } : WorkflowEvent).token = event.token := by
  refine ⟨?_, rfl, rfl⟩
  simp [lambda_handler, hs, hst]

/-- Witness for C7 on a concrete `Start` event. -/
theorem c7_start_branch_witness :
    (WorkflowEvent.mk (some "Start") none none
        (some [("JOB_PREFIX", "demo"), ("EXECUTION_ID", "e1"),
               ("BASE_MODEL", "titan"), ("TRAIN_DATA", "s3://t"),
               ("VALIDATION_DATA", "s3://v"), ("DATA_BUCKET", "b"),
               ("EPOCHS", "1"), ("BATCH_SIZE", "2"), ("LEARNING_RATE", "3"),
               ("WARMUP_STEPS", "4")]) (some "tok")).status = some "Start" ∧
    lambda_handler (Env.mk "us-east-1" "role")
      (fun _ => Except.ok "arn:created")
      (fun _ => Except.error (.clientError "unused"))
      (WorkflowEvent.mk (some "Start") none none
        (some [("JOB_PREFIX", "demo"), ("EXECUTION_ID", "e1"),
               ("BASE_MODEL", "titan"), ("TRAIN_DATA", "s3://t"),
               ("VALIDATION_DATA", "s3://v"), ("DATA_BUCKET", "b"),
               ("EPOCHS", "1"), ("BATCH_SIZE", "2"), ("LEARNING_RATE", "3"),
               ("WARMUP_STEPS", "4")]) (some "tok")) =
      .ok (some (WorkflowEvent.mk (some "InProgress")
          (some "demo-TuningJob-e1") (some "arn:created")
          (some [("JOB_PREFIX", "demo"), ("EXECUTION_ID", "e1"),
                 ("BASE_MODEL", "titan"), ("TRAIN_DATA", "s3://t"),
                 ("VALIDATION_DATA", "s3://v"), ("DATA_BUCKET", "b"),
                 ("EPOCHS", "1"), ("BATCH_SIZE", "2"), ("LEARNING_RATE", "3"),
                 ("WARMUP_STEPS", "4")]) (some "tok")), []) :=
  ⟨rfl,
    (c7_start_branch (Env.mk "us-east-1" "role")
      (fun _ => Except.ok "arn:created")
      (fun _ => Except.error (.clientError "unused"))
      (WorkflowEvent.mk (some "Start") none none
        (some [("JOB_PREFIX", "demo"), ("EXECUTION_ID", "e1"),
               ("BASE_MODEL", "titan"), ("TRAIN_DATA", "s3://t"),
               ("VALIDATION_DATA", "s3://v"), ("DATA_BUCKET", "b"),
               ("EPOCHS", "1"), ("BATCH_SIZE", "2"), ("LEARNING_RATE", "3"),
               ("WARMUP_STEPS", "4")]) (some "tok"))
      "demo-TuningJob-e1" "arn:created" rfl (by decide)).1⟩

/-- Helper: a block of `"Stopping"` records each contributes exactly its
failure callback, and routing continues with the rest of the batch. -/
theorem routeRecords_all_stopping (arn : String) (pre : List RouterPayload)
    (h : ∀ q ∈ pre, q.status = some "Stopping") (rest : List RouterPayload) :
    routeRecords arn (pre ++ rest) =
      (pre.map stoppingFailure ++ (routeRecords arn rest).1,
       (routeRecords arn rest).2) := by
  induction pre with
  | nil => simp
  | cons q pre ih =>
    have hq := h q (by simp)
    have ih2 := ih (fun r hr => h r (by simp [hr]))
    simp [routeRecords, hq, ih2, stoppingFailure]

/-- Helper: as soon as some earlier record is not `"Stopping"`, the router
returns and the remaining records are never examined. -/
theorem routeRecords_stops_early (arn : String) (pre rest : List RouterPayload)
    (h : ∃ q ∈ pre, q.status ≠ some "Stopping") :
    routeRecords arn (pre ++ rest) = routeRecords arn pre := by
  induction pre with
  | nil =>
    rcases h with ⟨q, hq, _⟩
    exact absurd hq (List.not_mem_nil q)
  | cons q pre ih =>
    by_cases hq : q.status = some "Stopping"
    · have h2 : ∃ r ∈ pre, r.status ≠ some "Stopping" := by
        rcases h with ⟨r, hr, hrs⟩
        rcases List.mem_cons.mp hr with h1 | h1
        · exact absurd (h1 ▸ hq) hrs
        · exact ⟨r, h1, hrs⟩
      simp [routeRecords, hq, ih h2]
    · simp [routeRecords, hq]

/-- C9: in a batch whose first non-`Stopping` record is `p`, the router
sends one failure callback per preceding `Stopping` record, starts exactly
one execution (for `p`) and returns the execution ARN at once, so the
records after `p` are never processed. -/
theorem c9_router_first_start_wins (arn : String)
    (pre post : List RouterPayload) (p : RouterPayload)
    (hpre : ∀ q ∈ pre, q.status = some "Stopping")
    (hp : p.status ≠ some "Stopping") :
    routeRecords arn (pre ++ p :: post) =
      (pre.map stoppingFailure ++
        [.startExecution ⟨"Start", p.arguments, p.token⟩],
       some ⟨200, arn⟩) ∧
    (routeRecords arn (pre ++ p :: post)).1.countP
      (fun a => a.isStart) = 1 := by
  have h1 : routeRecords arn (p :: post) =
      ([.startExecution ⟨"Start", p.arguments, p.token⟩], some ⟨200, arn⟩) := by
    simp [routeRecords, hp]
  have h2 := routeRecords_all_stopping arn pre hpre (p :: post)
  rw [h1] at h2
  refine ⟨h2, ?_⟩
  rw [h2]
  simp [List.countP_append, List.countP_map, Function.comp_def,
    stoppingFailure, RouterAction.isStart, List.countP_eq_zero]

/-- Witness for C9: one `Stopping` record, then a `Start` record, then a
trailing record that is never examined. -/
theorem c9_router_first_start_wins_witness :
    routeRecords "arn:exec"
      [RouterPayload.mk (some "Stopping") none (some "t1"),
       RouterPayload.mk (some "Start") (some [("EPOCHS", "1")]) (some "t2"),
       RouterPayload.mk (some "Stopping") none (some "t3")] =
      ([.sendFailure (some "t1") "Manual Stopping Behavior",
        .startExecution ⟨"Start", some [("EPOCHS", "1")], some "t2"⟩],
       some ⟨200, "arn:exec"⟩) ∧
    (routeRecords "arn:exec"
      [RouterPayload.mk (some "Stopping") none (some "t1"),
       RouterPayload.mk (some "Start") (some [("EPOCHS", "1")]) (some "t2"),
       RouterPayload.mk (some "Stopping") none (some "t3")]).1.countP
      (fun a => a.isStart) = 1 := by
  have := c9_router_first_start_wins "arn:exec"
    [RouterPayload.mk (some "Stopping") none (some "t1")]
    [RouterPayload.mk (some "Stopping") none (some "t3")]
    (RouterPayload.mk (some "Start") (some [("EPOCHS", "1")]) (some "t2"))
    (by intro q hq; simp at hq; rw [hq]) (by decide)
  simpa using this

/-- Counterexample to C2: in a queue event whose first record is not
`Stopping`, a later `Stopping` record gets no failure callback at all,
while a state-machine execution is started in the same invocation. -/
theorem c2_counterexample :
    (routeRecords "arn:exec"
      [RouterPayload.mk (some "Start") none (some "tokA"),
       RouterPayload.mk (some "Stopping") none (some "tokB")]).1 =
      [.startExecution ⟨"Start", none, some "tokA"⟩] ∧
    (routeRecords "arn:exec"
      [RouterPayload.mk (some "Start") none (some "tokA"),
       RouterPayload.mk (some "Stopping") none (some "tokB")]).1.countP
      (fun a => a == .sendFailure (some "tokB") "Manual Stopping Behavior") = 0 ∧
    (routeRecords "arn:exec"
      [RouterPayload.mk (some "Start") none (some "tokA"),
       RouterPayload.mk (some "Stopping") none (some "tokB")]).1.countP
      (fun a => a.isStart) = 1 := by
  decide

/-- C2 (amended): a `Stopping` record itself never triggers an execution
start; when every record before it in the batch is also `Stopping`, the
router produces exactly one failure callback for it, with the fixed reason
`Manual Stopping Behavior`; when an earlier record is not `Stopping`, the
record is never processed and gets no callback. -/
theorem c2_stopping_dispatch_amended (arn : String)
    (pre post : List RouterPayload) (p : RouterPayload)
    (hp : p.status = some "Stopping") :
    ((∀ q ∈ pre, q.status = some "Stopping") →
      routeRecords arn (pre ++ p :: post) =
        (pre.map stoppingFailure ++
          .sendFailure p.token "Manual Stopping Behavior" ::
            (routeRecords arn post).1,
         (routeRecords arn post).2)) ∧
    ((∃ q ∈ pre, q.status ≠ some "Stopping") →
      routeRecords arn (pre ++ p :: post) = routeRecords arn pre) := by
  constructor
  · intro hpre
    have h1 : routeRecords arn (p :: post) =
        (.sendFailure p.token "Manual Stopping Behavior" ::
          (routeRecords arn post).1,
         (routeRecords arn post).2) := by
      simp [routeRecords, hp]
    have h2 := routeRecords_all_stopping arn pre hpre (p :: post)
    rw [h1] at h2
    exact h2
  · intro hex
    exact routeRecords_stops_early arn pre (p :: post) hex

/-- Witness for the amended C2: a single `Stopping` record produces exactly
its failure callback and no execution. -/
theorem c2_stopping_dispatch_amended_witness :
    (RouterPayload.mk (some "Stopping") none (some "tok")).status
      = some "Stopping" ∧
    routeRecords "arn:exec"
      [RouterPayload.mk (some "Stopping") none (some "tok")] =
      ([.sendFailure (some "tok") "Manual Stopping Behavior"], none) := by
  have h := (c2_stopping_dispatch_amended "arn:exec" [] []
    (RouterPayload.mk (some "Stopping") none (some "tok")) rfl).1
    (by intro q hq; exact absurd hq (List.not_mem_nil q))
  exact ⟨rfl, h⟩

/-- Counterexample to C8: a queue record with no `status` field is not
rejected by the router; it is treated as a non-`Stopping` message and a
workflow execution is started for it. -/
theorem c8_counterexample_missing_status_router :
    routeRecords "arn:exec"
      [RouterPayload.mk none (some [("EPOCHS", "1")]) (some "tok")] =
      ([.startExecution ⟨"Start", some [("EPOCHS", "1")], some "tok"⟩],
       some ⟨200, "arn:exec"⟩) ∧
    (routeRecords "arn:exec"
      [RouterPayload.mk none (some [("EPOCHS", "1")]) (some "tok")]).1.countP
      (fun a => a.isStart) = 1 := by
  decide

/-- C8 (amended): the tuner handler rejects a payload with no `status`
field with a fatal `KeyError` before any provider call or state change
(its result does not depend on the provider stubs); the callback router
performs no such check — a record with no `status` field is treated as a
non-`Stopping` message and starts a workflow execution. -/
theorem c8_missing_status_amended :
    (∀ (env : Env) (c1 c2 : CreateRequest → Except PyErr String)
        (g1 g2 : Option String → Except PyErr BedrockResponse)
        (event : WorkflowEvent), event.status = none →
      lambda_handler env c1 g1 event =
        .error (.keyError "'status' parameter not found in event!") ∧
      lambda_handler env c1 g1 event = lambda_handler env c2 g2 event) ∧
    (∀ (arn : String) (p : RouterPayload) (rest : List RouterPayload),
      p.status = none →
      routeRecords arn (p :: rest) =
        ([.startExecution ⟨"Start", p.arguments, p.token⟩],
         some ⟨200, arn⟩)) := by
  constructor
  · intro env c1 c2 g1 g2 event h
    constructor <;> simp [lambda_handler, h]
  · intro arn p rest h
    simp [routeRecords, h]

/-- Witness for the amended C8 at concrete inputs. -/
theorem c8_missing_status_amended_witness :
    lambda_handler (Env.mk "us-east-1" "role")
      (fun _ => Except.ok "arn:created")
      (fun _ => Except.error (.clientError "unused"))
      (WorkflowEvent.mk none none none none (some "tok")) =
      .error (.keyError "'status' parameter not found in event!") ∧
    routeRecords "arn:exec" [RouterPayload.mk none none (some "tok")] =
      ([.startExecution ⟨"Start", none, some "tok"⟩], some ⟨200, "arn:exec"⟩) :=
  ⟨(c8_missing_status_amended.1 (Env.mk "us-east-1" "role")
      (fun _ => Except.ok "arn:created") (fun _ => Except.ok "arn:created")
      (fun _ => Except.error (.clientError "unused"))
      (fun _ => Except.error (.clientError "unused"))
      (WorkflowEvent.mk none none none none (some "tok")) rfl).1,
    c8_missing_status_amended.2 "arn:exec"
      (RouterPayload.mk none none (some "tok")) [] rfl⟩

/-- Helper: a step from a loop configuration stays out of the finalizer
tasks as long as the poll results are never terminal. -/
theorem sfnStep_nonterminal (f : Nat → String)
    (hf : ∀ k, f k ≠ "Completed" ∧ f k ≠ "Failed") (c : SfnConfig)
    (hc : c.isTerminal = false) : (sfnStep f c).isTerminal = false := by
  obtain ⟨node, polls⟩ := c
  cases node <;>
    simp_all [sfnStep, SfnConfig.isTerminal, (hf polls).1, (hf polls).2]

/-- Helper: iterated version of `sfnStep_nonterminal`. -/
theorem sfnRunFrom_nonterminal (f : Nat → String)
    (hf : ∀ k, f k ≠ "Completed" ∧ f k ≠ "Failed") :
    ∀ (n : Nat) (c : SfnConfig), c.isTerminal = false →
      (sfnRunFrom f n c).isTerminal = false
  | 0, _, hc => hc
  | n + 1, c, hc =>
    sfnRunFrom_nonterminal f hf n _ (sfnStep_nonterminal f hf c hc)

/-- Helper: the poller classification sends exactly the raw-terminal
provider states to the terminal reduced states. -/
theorem classify_terminal (s : String) (h : isRawTerminal s = true) :
    classifyStatus s = "Completed" ∨ classifyStatus s = "Failed" := by
  simp only [isRawTerminal, Bool.or_eq_true, decide_eq_true_eq] at h
  rcases h with ((h | h) | h) | h <;> subst h <;> decide

/-- Helper: from the `Wait` state, a terminal poll result reaches a
finalizer task in three transitions (wait, poll, branch). -/
theorem sfnThree (f : Nat → String) (k : Nat)
    (h : f k = "Completed" ∨ f k = "Failed") :
    (sfnRunFrom f 3 ⟨.waitTenMinutes, k⟩).isTerminal = true := by
  rcases h with h | h <;>
    simp [sfnRunFrom, sfnStep, SfnConfig.isTerminal, h]

/-- Helper: from the `Wait` state, a non-terminal poll result comes back to
the `Wait` state with the poll counter advanced, in three transitions. -/
theorem sfnCycle (f : Nat → String) (k : Nat)
    (h1 : f k ≠ "Completed") (h2 : f k ≠ "Failed") (m : Nat) :
    sfnRunFrom f (m + 3) ⟨.waitTenMinutes, k⟩ =
      sfnRunFrom f m ⟨.waitTenMinutes, k + 1⟩ := by
  show sfnRunFrom f (m + 1 + 1 + 1) ⟨.waitTenMinutes, k⟩ = _
  rw [sfnRunFrom, sfnRunFrom, sfnRunFrom]
  simp [sfnStep, h1, h2]

/-- Helper: from the `Wait` state, the loop reaches a finalizer task as
soon as some later poll result is terminal. -/
theorem sfnReach (f : Nat → String) :
    ∀ (d k : Nat), (f (k + d) = "Completed" ∨ f (k + d) = "Failed") →
      ∃ m, (sfnRunFrom f m ⟨.waitTenMinutes, k⟩).isTerminal = true := by
  intro d
  induction d with
  | zero =>
    intro k hk
    exact ⟨3, sfnThree f k (by simpa using hk)⟩
  | succ d ih =>
    intro k hk
    by_cases h1 : f k = "Completed"
    · exact ⟨3, sfnThree f k (Or.inl h1)⟩
    · by_cases h2 : f k = "Failed"
      · exact ⟨3, sfnThree f k (Or.inr h2)⟩
      · obtain ⟨m, hm⟩ := ih (k + 1) (by
          have he : k + 1 + d = k + (d + 1) := by omega
          rw [he]
          exact hk)
        exact ⟨m + 3, by rw [sfnCycle f k h1 h2 m]; exact hm⟩

/-- C6: the wait/poll state machine waits a fixed 10-minute interval, then
polls, then branches only on the returned status (`Completed` to the
success finalizer, `Failed` to the failure finalizer, anything else back to
the wait state); a finalizer task is entered only from the branch state
right after a poll returning `Completed` or `Failed`; no retry bound or
timeout is enforced (with never-terminal poll results the loop never
reaches a finalizer); and whenever the provider eventually reports a raw
terminal state, the loop reaches a finalizer in finitely many steps. -/
theorem c6_wait_poll_state_machine (pollResult : Nat → String) (c : SfnConfig) :
    waitDurationMinutes = 10 ∧
    (c.node = .waitTenMinutes →
      sfnStep pollResult c = ⟨.getTuningStatus, c.polls⟩) ∧
    ((sfnStep pollResult c).node = .reviewStatus →
      c.node = .getTuningStatus) ∧
    ((sfnStep pollResult c).node = .tuningComplete → c.node ≠ .tuningComplete →
      c.node = .reviewStatus ∧ pollResult c.polls = "Completed") ∧
    ((sfnStep pollResult c).node = .tuningFailed → c.node ≠ .tuningFailed →
      c.node = .reviewStatus ∧ pollResult c.polls = "Failed") ∧
    (c.node = .reviewStatus → pollResult c.polls ≠ "Completed" →
      pollResult c.polls ≠ "Failed" →
      sfnStep pollResult c = ⟨.waitTenMinutes, c.polls + 1⟩) ∧
    (∀ f : Nat → String, (∀ k, f k ≠ "Completed" ∧ f k ≠ "Failed") →
      ∀ n, (sfnRun f n).isTerminal = false) ∧
    (∀ g : Nat → String, ∀ N, isRawTerminal (g N) = true →
      ∃ m, (sfnRun (fun k => classifyStatus (g k)) m).isTerminal = true) := by
  obtain ⟨node, polls⟩ := c
  refine ⟨rfl, ?_, ?_, ?_, ?_, ?_, ?_, ?_⟩
  · intro h
    cases node
    case waitTenMinutes => rfl
    all_goals simp at h
  · intro h
    cases node
    case getTuningStatus => rfl
    case reviewStatus =>
      simp only [sfnStep] at h
      split_ifs at h
    all_goals simp [sfnStep] at h
  · intro h hne
    cases node
    case reviewStatus =>
      simp only [sfnStep] at h
      split_ifs at h with h1 h2
      simp_all
    case tuningComplete => exact absurd rfl hne
    all_goals simp [sfnStep] at h
  · intro h hne
    cases node
    case reviewStatus =>
      simp only [sfnStep] at h
      split_ifs at h with h1 h2
      simp_all
    case tuningFailed => exact absurd rfl hne
    all_goals simp [sfnStep] at h
  · intro h h1 h2
    cases node
    case reviewStatus => simp [sfnStep, h1, h2]
    all_goals simp at h
  · intro f hf n
    exact sfnRunFrom_nonterminal f hf n ⟨.startFineTuning, 0⟩ rfl
  · intro g N hterm
    have hcl := classify_terminal (g N) hterm
    obtain ⟨m, hm⟩ :=
      sfnReach (fun k => classifyStatus (g k)) N 0 (by simpa using hcl)
    exact ⟨m + 1, hm⟩

/-- Witness for C6: the fixed ten-minute wait, and a run over a provider
reporting `Stopped` at the first poll reaches a finalizer task. -/
theorem c6_wait_poll_state_machine_witness :
    waitDurationMinutes = 10 ∧
    isRawTerminal ((fun _ : Nat => "Stopped") 0) = true ∧
    (∃ m, (sfnRun (fun k => classifyStatus ((fun _ : Nat => "Stopped") k))
      m).isTerminal = true) :=
  ⟨(c6_wait_poll_state_machine (fun _ => "InProgress") ⟨.startFineTuning, 0⟩).1,
   by decide,
   (c6_wait_poll_state_machine (fun _ => "InProgress")
       ⟨.startFineTuning, 0⟩).2.2.2.2.2.2.2
     (fun _ => "Stopped") 0 (by decide)⟩
